import Mathlib

/-!
Shallow embedding of `window_mirror.py` (class `WindowMirror`, class
`MirrorWindow`, class `WindowSelectorGUI`) and proofs about it.

External, fallible platform calls (pygetwindow geometry queries, win32
client-area queries, `mss` screen grabs, `PrintWindow`) are modelled as
explicit inputs; where the source wraps a call in `try/except`, the
embedding either takes the call's outcome as an `Option`/`Except` value
or makes the exception flow explicit with `Except Unit`.
-/

/-- A pixel in BGR byte order, one channel value per component. -/
abbrev Pixel := Nat × Nat × Nat

/-- A captured image buffer (the `img_bgr` numpy array), flattened to a
list of pixels. -/
abbrev Frame := List Pixel

/-- Screen geometry of an OS window as reported by `pygetwindow`
(`window.left`, `window.top`, `window.width`, `window.height`). -/
structure Window where
  left : Int
  top : Int
  width : Int
  height : Int
deriving DecidableEq, Repr

/-- The coordinate dict returned by
`WindowMirror.get_capture_coordinates`. -/
structure Region where
  left : Int
  top : Int
  width : Int
  height : Int
deriving DecidableEq, Repr

/-- Result of the precise client-area query:
`win32gui.ClientToScreen(hwnd, (0, 0))` gives `(px, py)` and
`win32gui.GetClientRect(hwnd)` gives client width `cw` and height `ch`
(entries 2 and 3 of the rect). -/
structure Win32Client where
  px : Int
  py : Int
  cw : Int
  ch : Int
deriving DecidableEq, Repr

/-- Embedding of `WindowMirror.get_capture_coordinates` (lines 86-129).
`w32 = none` models the path where `WINDOWS_AVAILABLE and self.hwnd` is
false or where `GetClientRect` / `ClientToScreen` raised (the inner
`except: pass`), so the heuristic fallback runs.  The attribute reads
`window.left` etc. are total here, so the outer `except` branch (which
re-reads the same attributes) is unreachable in the model. -/
def get_capture_coordinates (exclude_title_bar : Bool)
    (w32 : Option Win32Client) (window : Window) : Region :=
  if exclude_title_bar = false then
    { left := window.left, top := window.top,
      width := window.width, height := window.height }
  else
    match w32 with
    | some c =>
      { left := c.px, top := c.py, width := c.cw, height := c.ch }
    | none =>
      let title_bar_height : Int := 32
      let border_width : Int := 8
      { left := window.left + border_width,
        top := window.top + title_bar_height,
        width := max 100 (window.width - (2 * border_width)),
        height := max 100 (window.height - title_bar_height - border_width) }

/-- A top-level OS window as enumerated by `gw.getAllWindows()`. -/
structure OSWindow where
  title : String
  left : Int
  top : Int
  width : Int
  height : Int
deriving DecidableEq, Repr

/-- Model of Python `str.strip()`: drop leading and trailing whitespace
characters (ASCII whitespace suffices for the titles considered here). -/
def strip (s : String) : String :=
  ⟨((s.data.dropWhile Char.isWhitespace).reverse.dropWhile
      Char.isWhitespace).reverse⟩

/-- The filter condition of `WindowMirror.list_windows` (lines 57-59):
`window.title and len(window.title.strip()) > 0` then
`window.width > 100 and window.height > 100`. -/
def list_windows_keep (w : OSWindow) : Bool :=
  (w.title != "") && ((strip w.title).length != 0)
    && decide (100 < w.width) && decide (100 < w.height)

/-- Embedding of `WindowMirror.list_windows` (lines 52-65): keeps, in
order, the windows passing `list_windows_keep`. -/
def list_windows (ws : List OSWindow) : List OSWindow :=
  ws.filter list_windows_keep

/-- Stripping a string to something non-empty forces the string itself
to be non-empty. -/
lemma title_strip_ne_empty {s : String} (h : (strip s).length ≠ 0) :
    s ≠ "" := by
  intro hs
  subst hs
  exact h (by decide)

/-- Model of `queue.Queue(maxsize=5).put_nowait`: `none` models the
`queue.Full` exception, raised exactly when the queue already holds 5
items; otherwise the item is appended at the tail.  The head of the
list is the oldest element. -/
def put_nowait (q : List Frame) (f : Frame) : Option (List Frame) :=
  if q.length < 5 then some (q ++ [f]) else none

/-- Model of `queue.Queue.get_nowait`: `none` models the `queue.Empty`
exception; otherwise the oldest element is removed and returned. -/
def get_nowait (q : List Frame) : Option (Frame × List Frame) :=
  match q with
  | [] => none
  | f :: rest => some (f, rest)

/-- The push performed by `WindowMirror.capture_loop` (lines 302-310):
`put_nowait`, on `queue.Full` drop the oldest element with `get_nowait`
and retry the put (`except queue.Empty: pass` leaves the queue as is; a
second `queue.Full`, impossible in this single-producer model, would
leave the queue as it stood after the get). -/
def push_frame (q : List Frame) (f : Frame) : List Frame :=
  match put_nowait q f with
  | some q' => q'
  | none =>
    match get_nowait q with
    | none => q
    | some (_, q') =>
      match put_nowait q' f with
      | some q'' => q''
      | none => q'

/-- The drain loop of `MirrorWindow.update_display` (lines 382-387):
`frame = None; while not empty: frame = get_nowait()`.  Returns the
frame that will be rendered and the queue contents afterwards. -/
def drain_go (q : List Frame) (acc : Option Frame) :
    Option Frame × List Frame :=
  match q with
  | [] => (acc, [])
  | f :: rest => drain_go rest (some f)

/-- One `update_display` tick's queue interaction: drain everything,
keeping only the last (newest) frame taken. -/
def drain (q : List Frame) : Option Frame × List Frame :=
  drain_go q none

/-- The mutable loop state touched by `WindowMirror.capture_loop`:
the two boolean flags, the frame queue and the frame counter. -/
structure LoopState where
  capture_running : Bool
  running : Bool
  frame_queue : List Frame
  frame_count : Nat
deriving DecidableEq, Repr

/-- The external inputs consumed by one iteration of `capture_loop`:
whether `window_exists(self.target_window)` reports true (it returns
`False` exactly when the geometry query raises), and the result of
`capture_window` (which never raises). -/
structure IterInput where
  window_alive : Bool
  frame : Option Frame
deriving DecidableEq, Repr

/-- One iteration of the body of `capture_loop` (lines 295-319): break
without touching any flag when the window is gone; otherwise push the
captured frame, if any, and count it.  The boolean is true when the
`while` loop continues. -/
def capture_loop_iter (s : LoopState) (inp : IterInput) :
    LoopState × Bool :=
  if inp.window_alive = false then (s, false)
  else
    match inp.frame with
    | some f =>
      ({ s with frame_queue := push_frame s.frame_queue f,
                frame_count := s.frame_count + 1 }, true)
    | none => (s, true)

/-- Embedding of `WindowMirror.capture_loop` (lines 289-323) over a
finite trace of per-iteration inputs: the `while self.capture_running`
condition is checked at each loop head, then the body runs.  Returns
the final state and the number of iterations entered. -/
def capture_loop (inputs : List IterInput) (s : LoopState) :
    LoopState × Nat :=
  match inputs with
  | [] => (s, 0)
  | inp :: rest =>
    if s.capture_running = false then (s, 0)
    else
      match capture_loop_iter s inp with
      | (s', false) => (s', 1)
      | (s', true) =>
        let r := capture_loop rest s'
        (r.1, r.2 + 1)

/-- State of the `mss` screen-capture backend held in `self.sct`:
`Sct.none` is `self.sct is None`, `Sct.live` an open backend,
`Sct.closed` a backend object whose `close()` has run but which is
still referenced by `self.sct`. -/
inductive Sct where
  | none
  | live
  | closed
deriving DecidableEq, Repr

/-- The fields of `WindowMirror` read or written by `stop_mirroring`. -/
structure MirrorState where
  capture_running : Bool
  running : Bool
  sct : Sct
deriving DecidableEq, Repr

/-- Embedding of `WindowMirror.stop_mirroring` (lines 325-339): clear
both flags, join the capture thread with a 1 second timeout (no state
change modelled: `self.capture_thread` is left assigned), and if a
backend object is referenced, call its `close()` inside
`try/except: pass` — the reference itself is never reset to `None`. -/
def stop_mirroring (s : MirrorState) : MirrorState :=
  { capture_running := false,
    running := false,
    sct := match s.sct with
           | Sct.none => Sct.none
           | Sct.live => Sct.closed
           | Sct.closed => Sct.closed }

/-- Model of Python `int(entry)` on the FPS spinbox text: an optional
sign followed by at least one ASCII digit; `none` models the
`ValueError` raised on anything else.  (Python additionally tolerates
surrounding whitespace and digit-group underscores; those entries parse
to the same clamped results, so the distinction is immaterial here.) -/
def parse_fps (entry : String) : Option Int :=
  match entry.data with
  | [] => none
  | c :: rest =>
    let digits := if c = '-' ∨ c = '+' then rest else c :: rest
    if digits.isEmpty || !(digits.all Char.isDigit) then none
    else
      let n : Nat := digits.foldl (fun acc d => 10 * acc + (d.toNat - 48)) 0
      if c = '-' then some (-(n : Int)) else some (n : Int)

/-- The `target_fps` assignment in `WindowSelectorGUI.start_mirroring`
(lines 531-535): `max(10, min(240, int(entry)))`, or 60 when `int`
raises `ValueError`. -/
def gui_target_fps (entry : String) : Int :=
  match parse_fps entry with
  | some fps => max 10 (min 240 fps)
  | none => 60

/-- Whether every byte of the buffer is 0: `np.all(img_bgr == 0)`. -/
def allBlack (f : Frame) : Bool :=
  f.all (fun p => p == ((0 : Nat), (0 : Nat), (0 : Nat)))

/-- Whether every byte of the buffer is 255: `np.all(img_bgr == 255)`. -/
def allWhite (f : Frame) : Bool :=
  f.all (fun p => p == ((255 : Nat), (255 : Nat), (255 : Nat)))

/-- Whether the buffer is entirely one single color (every pixel equal
to the first). -/
def uniformColor (f : Frame) : Bool :=
  match f with
  | [] => true
  | p :: ps => ps.all (fun q => q == p)

/-- The external outcomes feeding one `capture_window_direct` call:
whether `WINDOWS_AVAILABLE and self.hwnd` holds, whether the rect query
(`GetClientRect` / `GetWindowRect`) succeeds and what width and height
it reports, whether the DC / bitmap / `PrintWindow` machinery raises,
the boolean `PrintWindow` returned, and the pixel buffer assembled from
the bitmap bits when it returned nonzero. -/
structure DirectEnv where
  avail : Bool
  rectOk : Bool
  width : Int
  height : Int
  dcOk : Bool
  printResult : Bool
  buf : Frame

/-- Body of `WindowMirror.capture_window_direct` (lines 131-186) with
the exception flow explicit: `Except.error ()` marks a raise that will
reach this function's own `except Exception: pass` handler. -/
def capture_window_direct_body (e : DirectEnv) :
    Except Unit (Option Frame) :=
  if e.avail = false then Except.ok none
  else if e.rectOk = false then Except.error ()
  else if e.width ≤ 0 ∨ e.height ≤ 0 then Except.ok none
  else if e.dcOk = false then Except.error ()
  else if e.printResult then
    if allBlack e.buf || allWhite e.buf then Except.ok none
    else Except.ok (some e.buf)
  else Except.ok none

/-- `WindowMirror.capture_window_direct` with its trailing
`except Exception: pass` / `return None` applied. -/
def capture_window_direct (e : DirectEnv) : Option Frame :=
  match capture_window_direct_body e with
  | Except.ok r => r
  | Except.error _ => none

/-- Models `if self.sct is None: self.sct = mss.mss()` (both in
`capture_window` and in `capture_window_screen`): `mssOk = false` means
the `mss.mss()` constructor raises. -/
def ensure_sct (mssOk : Bool) (sct : Sct) : Except Unit Sct :=
  if sct = Sct.none then
    (if mssOk then Except.ok Sct.live else Except.error ())
  else Except.ok sct

/-- The external outcomes feeding the screen tier: whether `mss.mss()`
construction succeeds, and the result of `self.sct.grab(monitor)` plus
the array conversions for a given capture region (`Except.error ()`
models a raise). -/
structure ScreenEnv where
  mssOk : Bool
  grab : Region → Except Unit Frame

/-- Body of `WindowMirror.capture_window_screen` (lines 188-216) with
the exception flow explicit: ensure the backend exists, resolve the
capture coordinates, then grab that region. -/
def capture_window_screen_body (e : ScreenEnv) (exclude : Bool)
    (w32 : Option Win32Client) (window : Window) (sct : Sct) :
    Except Unit (Frame × Sct) :=
  match ensure_sct e.mssOk sct with
  | Except.error u => Except.error u
  | Except.ok s =>
    match e.grab (get_capture_coordinates exclude w32 window) with
    | Except.ok f => Except.ok (f, s)
    | Except.error _ => Except.error ()

/-- `WindowMirror.capture_window_screen` with its handler applied: on
any raise, close the backend, reset `self.sct` to `None` and return
`None`. -/
def capture_window_screen (e : ScreenEnv) (exclude : Bool)
    (w32 : Option Win32Client) (window : Window) (sct : Sct) :
    Option Frame × Sct :=
  match capture_window_screen_body e exclude w32 window sct with
  | Except.ok (f, s) => (some f, s)
  | Except.error _ => (none, Sct.none)

/-- Body of `WindowMirror.capture_window` (lines 218-239) with the
exception flow explicit: ensure the backend exists (this is the only
raise its own handler can see — both tiers absorb their own), try the
direct tier, otherwise fall back to the screen tier. -/
def capture_window_body (de : DirectEnv) (se : ScreenEnv)
    (exclude : Bool) (w32 : Option Win32Client) (window : Window)
    (sct : Sct) : Except Unit (Option Frame × Sct) :=
  match ensure_sct se.mssOk sct with
  | Except.error u => Except.error u
  | Except.ok s =>
    match capture_window_direct de with
    | some f => Except.ok (some f, s)
    | none => Except.ok (capture_window_screen se exclude w32 window s)

/-- `WindowMirror.capture_window` with its handler applied: on a raise,
close the backend, reset `self.sct` to `None` and return `None`. -/
def capture_window (de : DirectEnv) (se : ScreenEnv) (exclude : Bool)
    (w32 : Option Win32Client) (window : Window) (sct : Sct) :
    Option Frame × Sct :=
  match capture_window_body de se exclude w32 window sct with
  | Except.ok r => r
  | Except.error _ => (none, Sct.none)

/-- The whole `capture_window` call as seen by its caller, with the
outermost `try/except` made explicit as a handler over the body: an
`Except.error` result here would be an exception escaping to the
caller. -/
def capture_window_exc (de : DirectEnv) (se : ScreenEnv)
    (exclude : Bool) (w32 : Option Win32Client) (window : Window)
    (sct : Sct) : Except Unit (Option Frame × Sct) :=
  match capture_window_body de se exclude w32 window sct with
  | Except.ok r => Except.ok r
  | Except.error _ => Except.ok (none, Sct.none)

/-- C1 counterexample: with `excludeTitleBar = false` a 50 by 50 window
is returned unclamped, so the resolved width is 50, below 100: the
minimum-size guarantee does not hold on every path. -/
theorem get_capture_coordinates_small_window :
    get_capture_coordinates false none ⟨0, 0, 50, 50⟩ = ⟨0, 0, 50, 50⟩ ∧
    ¬ (100 ≤ (get_capture_coordinates false none ⟨0, 0, 50, 50⟩).width) := by
  constructor
  · rfl
  · decide

/-- C1 (amended): on the heuristic fallback path (title bar excluded and
the precise client-area query unavailable or failed), the resolved
region has width and height at least 100, and its left and top are the
window's left plus 8 and top plus 32. -/
theorem get_capture_coordinates_heuristic_bounds (window : Window) :
    100 ≤ (get_capture_coordinates true none window).width ∧
    100 ≤ (get_capture_coordinates true none window).height ∧
    (get_capture_coordinates true none window).left = window.left + 8 ∧
    (get_capture_coordinates true none window).top = window.top + 32 := by
  refine ⟨?_, ?_, rfl, rfl⟩
  · exact le_max_left _ _
  · exact le_max_left _ _

/-- C3 counterexample: a window titled with a single space has title
length 1 > 0 and dimensions 200 by 200 > 100, yet `list_windows`
excludes it, because the code tests the stripped title's length. -/
theorem list_windows_whitespace_title :
    list_windows [⟨" ", 0, 0, 200, 200⟩] = [] ∧
    (" " : String).length = 1 := by
  constructor
  · decide
  · decide

/-- C3 (amended): `list_windows` includes exactly those windows whose
title stripped of surrounding whitespace is non-empty and whose width
and height both exceed 100 pixels. -/
theorem list_windows_membership (ws : List OSWindow) (w : OSWindow) :
    w ∈ list_windows ws ↔
      w ∈ ws ∧ (strip w.title).length ≠ 0 ∧ 100 < w.width ∧ 100 < w.height := by
  simp only [list_windows, List.mem_filter, list_windows_keep,
    Bool.and_eq_true, bne_iff_ne, ne_eq, decide_eq_true_eq]
  constructor
  · rintro ⟨hmem, ⟨⟨-, htrim⟩, hw⟩, hh⟩
    exact ⟨hmem, htrim, hw, hh⟩
  · rintro ⟨hmem, htrim, hw, hh⟩
    exact ⟨hmem, ⟨⟨title_strip_ne_empty htrim, htrim⟩, hw⟩, hh⟩

/-- Draining never leaves anything in the queue. -/
lemma drain_go_snd (q : List Frame) : ∀ acc, (drain_go q acc).2 = [] := by
  induction q with
  | nil => intro acc; rfl
  | cons a rest ih => intro acc; simpa [drain_go] using ih (some a)

/-- Draining a queue ending in frame `f` yields exactly `f`. -/
lemma drain_go_append (q : List Frame) (f : Frame) :
    ∀ acc, drain_go (q ++ [f]) acc = (some f, []) := by
  induction q with
  | nil => intro acc; rfl
  | cons a rest ih => intro acc; simpa [drain_go] using ih (some a)

/-- C2 counterexample: starting `capture_loop` with both flags true and
a dead target window, the loop exits after one iteration but the
`running` flag is still true — the loop never clears it. -/
theorem capture_loop_break_keeps_running_flag :
    (capture_loop [⟨false, none⟩] ⟨true, true, [], 0⟩).1.running = true ∧
    (capture_loop [⟨false, none⟩] ⟨true, true, [], 0⟩).1.capture_running
      = true ∧
    (capture_loop [⟨false, none⟩] ⟨true, true, [], 0⟩).2 = 1 :=
  ⟨rfl, rfl, rfl⟩

/-- C2 (amended): when the geometry query fails in a capture-loop
iteration, the loop terminates within that one iteration with the loop
state unchanged — in particular the `running` and `capture_running`
flags keep their prior values (they stay true until `stop_mirroring`
clears them). -/
theorem capture_loop_window_closed_terminates (s : LoopState)
    (inp : IterInput) (rest : List IterInput)
    (h1 : s.capture_running = true) (h2 : inp.window_alive = false) :
    capture_loop (inp :: rest) s = (s, 1) := by
  simp [capture_loop, capture_loop_iter, h1, h2]

/-- Concrete run of `capture_loop_window_closed_terminates` with both
flags set and a window-closed first iteration. -/
theorem capture_loop_window_closed_terminates_check :
    (⟨true, true, [], 0⟩ : LoopState).capture_running = true ∧
    (⟨false, none⟩ : IterInput).window_alive = false ∧
    capture_loop [⟨false, none⟩] ⟨true, true, [], 0⟩
      = (⟨true, true, [], 0⟩, 1) :=
  ⟨rfl, rfl, capture_loop_window_closed_terminates _ _ _ rfl rfl⟩

/-- C4: pushing into a full queue (5 frames held) evicts the oldest
queued frame and admits the new one at the tail; the new frame is never
the one dropped. -/
theorem push_frame_full_evicts_oldest (q : List Frame) (f : Frame)
    (h : q.length = 5) :
    push_frame q f = q.tail ++ [f] ∧ f ∈ push_frame q f := by
  cases q with
  | nil => simp at h
  | cons a rest =>
    have hlen : rest.length = 4 := by simpa using h
    have hfull : ¬ ((a :: rest).length < 5) := by simp [hlen]
    constructor
    · simp [push_frame, put_nowait, get_nowait, hfull, hlen]
    · simp [push_frame, put_nowait, get_nowait, hfull, hlen]

/-- Concrete run of `push_frame_full_evicts_oldest` on a full queue of
five one-pixel frames. -/
theorem push_frame_full_evicts_oldest_check :
    ([[((1 : Nat), (1 : Nat), (1 : Nat))], [(2, 2, 2)], [(3, 3, 3)],
        [(4, 4, 4)], [(5, 5, 5)]] : List Frame).length = 5 ∧
    (push_frame
        [[(1, 1, 1)], [(2, 2, 2)], [(3, 3, 3)], [(4, 4, 4)], [(5, 5, 5)]]
        [(6, 6, 6)]
      = ([[(1, 1, 1)], [(2, 2, 2)], [(3, 3, 3)], [(4, 4, 4)],
          [(5, 5, 5)]] : List Frame).tail ++ [[(6, 6, 6)]] ∧
      [(6, 6, 6)] ∈ push_frame
        [[(1, 1, 1)], [(2, 2, 2)], [(3, 3, 3)], [(4, 4, 4)], [(5, 5, 5)]]
        [(6, 6, 6)]) :=
  ⟨rfl, push_frame_full_evicts_oldest _ _ rfl⟩

/-- C5: both queue operations preserve the capacity bound — a push into
a queue holding at most 5 frames leaves at most 5 frames, and a display
drain leaves at most 5 (in fact zero). -/
theorem frame_queue_bounded (q : List Frame) (f : Frame)
    (h : q.length ≤ 5) :
    (push_frame q f).length ≤ 5 ∧ ((drain q).2).length ≤ 5 := by
  constructor
  · by_cases hlt : q.length < 5
    · simp only [push_frame, put_nowait, if_pos hlt]
      simp only [List.length_append, List.length_cons, List.length_nil]
      omega
    · have h5 : q.length = 5 := by omega
      cases q with
      | nil => simp at h5
      | cons a rest =>
        have hlen : rest.length = 4 := by simpa using h5
        simp [push_frame, put_nowait, get_nowait, hlt, hlen]
  · simp [drain, drain_go_snd]

/-- Concrete run of `frame_queue_bounded` on the empty queue. -/
theorem frame_queue_bounded_check :
    ([] : List Frame).length ≤ 5 ∧
    ((push_frame [] [(7, 7, 7)]).length ≤ 5 ∧
      ((drain []).2).length ≤ 5) :=
  ⟨by decide, frame_queue_bounded [] [(7, 7, 7)] (by decide)⟩

/-- C6: one `update_display` tick on a queue whose newest (last pushed)
frame is `f` renders exactly `f` and discards every earlier frame,
leaving the queue empty. -/
theorem update_display_renders_newest (q : List Frame) (f : Frame) :
    drain (q ++ [f]) = (some f, []) := by
  simpa [drain] using drain_go_append q f none

/-- C8: `stop_mirroring` is idempotent and total: a second call leaves
exactly the state of the first call, both running flags end false, and
the capture backend is never left live. -/
theorem stop_mirroring_idempotent (s : MirrorState) :
    stop_mirroring (stop_mirroring s) = stop_mirroring s ∧
    (stop_mirroring s).running = false ∧
    (stop_mirroring s).capture_running = false ∧
    ((stop_mirroring s).sct = Sct.none ∨
      (stop_mirroring s).sct = Sct.closed) := by
  cases s with
  | mk cr r sct => cases sct <;> simp [stop_mirroring]

/-- C10: the `target_fps` set by the selector GUI is always in
`[10, 240]`, and a non-integer entry yields 60. -/
theorem gui_target_fps_range (entry : String) :
    (10 ≤ gui_target_fps entry ∧ gui_target_fps entry ≤ 240) ∧
    (parse_fps entry = none → gui_target_fps entry = 60) := by
  constructor
  · unfold gui_target_fps
    cases h : parse_fps entry with
    | none => simp
    | some n =>
      refine ⟨le_max_left _ _, ?_⟩
      exact max_le (by norm_num) (min_le_left _ _)
  · intro h
    simp [gui_target_fps, h]

/-- Concrete run of `gui_target_fps_range` on a non-numeric entry. -/
theorem gui_target_fps_range_check :
    parse_fps "fast" = none ∧ gui_target_fps "fast" = 60 :=
  ⟨by decide, (gui_target_fps_range "fast").2 (by decide)⟩

/-- The backend handle produced by `ensure_sct` leads the screen tier to
the same result as the handle it started from: a fresh backend and an
already-live backend grab identically. -/
lemma capture_window_screen_ensure (se : ScreenEnv) (exclude : Bool)
    (w32 : Option Win32Client) (window : Window) (sct s : Sct)
    (hs : ensure_sct se.mssOk sct = Except.ok s) :
    capture_window_screen se exclude w32 window s =
      capture_window_screen se exclude w32 window sct := by
  cases sct <;> cases hm : se.mssOk <;>
    simp [ensure_sct, hm] at hs <;>
    simp [← hs, capture_window_screen, capture_window_screen_body,
      ensure_sct, hm]

/-- When the direct tier yields nothing, `capture_window` returns
exactly what the screen tier returns from the same starting state. -/
lemma capture_window_of_direct_none (de : DirectEnv) (se : ScreenEnv)
    (exclude : Bool) (w32 : Option Win32Client) (window : Window)
    (sct : Sct) (h : capture_window_direct de = none) :
    capture_window de se exclude w32 window sct =
      capture_window_screen se exclude w32 window sct := by
  unfold capture_window capture_window_body
  cases hs : ensure_sct se.mssOk sct with
  | error u =>
    have hn : sct = Sct.none := by
      by_contra hc
      simp [ensure_sct, hc] at hs
    have hm : se.mssOk = false := by
      by_contra hc
      simp [ensure_sct, hn, eq_true_of_ne_false hc] at hs
    subst hn
    simp [capture_window_screen, capture_window_screen_body, ensure_sct, hm]
  | ok s =>
    simp [h, capture_window_screen_ensure se exclude w32 window sct s hs]

/-- C9: `capture_window` never lets an exception reach its caller; for
every outcome of the platform calls, it hands back either the direct
tier's frame or exactly the screen tier's result. -/
theorem capture_window_never_raises (de : DirectEnv) (se : ScreenEnv)
    (exclude : Bool) (w32 : Option Win32Client) (window : Window)
    (sct : Sct) :
    capture_window_exc de se exclude w32 window sct =
      Except.ok (capture_window de se exclude w32 window sct) ∧
    ((capture_window de se exclude w32 window sct).1 =
        capture_window_direct de ∨
      capture_window de se exclude w32 window sct =
        capture_window_screen se exclude w32 window sct) := by
  constructor
  · unfold capture_window_exc capture_window
    cases capture_window_body de se exclude w32 window sct <;> rfl
  · cases hd : capture_window_direct de with
    | none => exact Or.inr (capture_window_of_direct_none _ _ _ _ _ _ hd)
    | some f =>
      cases hs : ensure_sct se.mssOk sct with
      | ok s =>
        left
        unfold capture_window capture_window_body
        simp [hs, hd]
      | error u =>
        right
        have hn : sct = Sct.none := by
          by_contra hc
          simp [ensure_sct, hc] at hs
        have hm : se.mssOk = false := by
          by_contra hc
          simp [ensure_sct, hn, eq_true_of_ne_false hc] at hs
        subst hn
        unfold capture_window capture_window_body
        simp [hs, capture_window_screen, capture_window_screen_body,
          ensure_sct, hm]

/-- C7 counterexample: a direct-tier buffer that is entirely uniform
gray passes the blank check (which only rejects all-black and
all-white), so `capture_window` returns it even though the screen tier
would have produced a different frame. -/
theorem capture_window_uniform_gray_returned :
    capture_window_direct
        ⟨true, true, 10, 10, true, true,
          [(128, 128, 128), (128, 128, 128)]⟩
      = some [(128, 128, 128), (128, 128, 128)] ∧
    uniformColor
        [((128 : Nat), (128 : Nat), (128 : Nat)), (128, 128, 128)]
      = true ∧
    (capture_window
        ⟨true, true, 10, 10, true, true,
          [(128, 128, 128), (128, 128, 128)]⟩
        ⟨true, fun _ => Except.ok [(9, 9, 9)]⟩ false none ⟨0, 0, 0, 0⟩
        Sct.live).1
      = some [(128, 128, 128), (128, 128, 128)] ∧
    (capture_window_screen ⟨true, fun _ => Except.ok [(9, 9, 9)]⟩ false
        none ⟨0, 0, 0, 0⟩ Sct.live).1 = some [(9, 9, 9)] ∧
    ([(128, 128, 128), (128, 128, 128)] : Frame) ≠ [(9, 9, 9)] :=
  ⟨rfl, rfl, rfl, rfl, by decide⟩

/-- C7 (amended): a direct-tier buffer that is entirely black or
entirely white is discarded as if the direct capture failed, and
`capture_window` returns exactly the screen fallback tier's result. -/
theorem capture_window_blank_fallback (de : DirectEnv) (se : ScreenEnv)
    (exclude : Bool) (w32 : Option Win32Client) (window : Window)
    (sct : Sct) (h : allBlack de.buf = true ∨ allWhite de.buf = true) :
    capture_window_direct de = none ∧
    capture_window de se exclude w32 window sct =
      capture_window_screen se exclude w32 window sct := by
  have hb : (allBlack de.buf || allWhite de.buf) = true := by
    rcases h with h | h <;> simp [h]
  have hd : capture_window_direct de = none := by
    unfold capture_window_direct capture_window_direct_body
    rw [hb]
    split_ifs <;> simp_all
  exact ⟨hd, capture_window_of_direct_none _ _ _ _ _ _ hd⟩

/-- Concrete run of `capture_window_blank_fallback` on an all-black
direct buffer. -/
theorem capture_window_blank_fallback_check :
    (allBlack [((0 : Nat), (0 : Nat), (0 : Nat))] = true ∨
      allWhite [((0 : Nat), (0 : Nat), (0 : Nat))] = true) ∧
    (capture_window_direct ⟨true, true, 4, 4, true, true, [(0, 0, 0)]⟩
        = none ∧
      capture_window ⟨true, true, 4, 4, true, true, [(0, 0, 0)]⟩
          ⟨true, fun _ => Except.ok [(9, 9, 9)]⟩ true none
          ⟨0, 0, 300, 200⟩ Sct.none
        = capture_window_screen ⟨true, fun _ => Except.ok [(9, 9, 9)]⟩
            true none ⟨0, 0, 300, 200⟩ Sct.none) :=
  ⟨Or.inl rfl, capture_window_blank_fallback _ _ _ _ _ _ (Or.inl rfl)⟩
